import Mathlib

/-!
Verification of `meteo_birds` / `opera_retrieval` (radar-archive decoding,
cone extraction, bird-track diagnostics, raster export, retry download)
against its natural-language specification, via a shallow embedding of the
Python sources in Lean.

Conventions of the embedding:
* Python floats that can be NaN are `Option ℚ` (`none` = NaN); exact float
  comparisons become decidable `ℚ` comparisons.
* External geodesy (`pyproj.Geod.inv`) is an uninterpreted parameter: a
  function giving the azimuth (and distance) between two points.
* Fallible code returns `Except String _`.
-/

namespace MeteoBirds

/-! ## Timestamps and `datetime.strptime(ts, "%Y%m%d%H%M")`

CPython's `_strptime` compiles the format to the regex
`(?P<Y>\d\d\d\d)(?P<m>1[0-2]|0[1-9]|[1-9])(?P<d>3[01]|[12]\d|0[1-9]|[1-9])`
`(?P<H>2[0-3]|[0-1]\d|\d)(?P<M>[0-5]\d|\d)`, applies `re.match` (first match
in backtracking order, not necessarily consuming the whole string), then
rejects if unconverted data remains, and finally builds a `datetime`, which
validates the day against the month (and the year range). -/

structure Timestamp where
  year : ℕ
  month : ℕ
  day : ℕ
  hour : ℕ
  minute : ℕ
deriving DecidableEq, Repr

/-- Numeric value of a decimal digit character. -/
def digitVal (c : Char) : ℕ := c.toNat - 48

/-- `%Y` matches exactly four digits. -/
def matchY : List Char → Option (ℕ × List Char)
  | a :: b :: c :: d :: rest =>
      if a.isDigit && b.isDigit && c.isDigit && d.isDigit then
        some (1000 * digitVal a + 100 * digitVal b + 10 * digitVal c + digitVal d, rest)
      else none
  | _ => none

/-- Candidates for `%m` = `1[0-2]|0[1-9]|[1-9]`, in regex alternation order
(two-digit alternatives before the one-digit one). -/
def candM (s : List Char) : List (ℕ × List Char) :=
  (match s with
   | a :: b :: rest =>
       if (a = '1' && b.isDigit && digitVal b ≤ 2) ||
          (a = '0' && b.isDigit && 1 ≤ digitVal b) then
         [(10 * digitVal a + digitVal b, rest)]
       else []
   | _ => []) ++
  (match s with
   | a :: rest =>
       if a.isDigit && 1 ≤ digitVal a then [(digitVal a, rest)] else []
   | _ => [])

/-- Candidates for `%d` = `3[01]|[12]\d|0[1-9]|[1-9]`, in alternation order. -/
def candD (s : List Char) : List (ℕ × List Char) :=
  (match s with
   | a :: b :: rest =>
       if (a = '3' && b.isDigit && digitVal b ≤ 1) ||
          ((a = '1' || a = '2') && b.isDigit) ||
          (a = '0' && b.isDigit && 1 ≤ digitVal b) then
         [(10 * digitVal a + digitVal b, rest)]
       else []
   | _ => []) ++
  (match s with
   | a :: rest =>
       if a.isDigit && 1 ≤ digitVal a then [(digitVal a, rest)] else []
   | _ => [])

/-- Candidates for `%H` = `2[0-3]|[0-1]\d|\d`, in alternation order. -/
def candH (s : List Char) : List (ℕ × List Char) :=
  (match s with
   | a :: b :: rest =>
       if (a = '2' && b.isDigit && digitVal b ≤ 3) ||
          ((a = '0' || a = '1') && b.isDigit) then
         [(10 * digitVal a + digitVal b, rest)]
       else []
   | _ => []) ++
  (match s with
   | a :: rest => if a.isDigit then [(digitVal a, rest)] else []
   | _ => [])

/-- Candidates for `%M` = `[0-5]\d|\d`, in alternation order. -/
def candMin (s : List Char) : List (ℕ × List Char) :=
  (match s with
   | a :: b :: rest =>
       if a.isDigit && digitVal a ≤ 5 && b.isDigit then
         [(10 * digitVal a + digitVal b, rest)]
       else []
   | _ => []) ++
  (match s with
   | a :: rest => if a.isDigit then [(digitVal a, rest)] else []
   | _ => [])

/-- First full-pattern match of the compiled `%Y%m%d%H%M` regex in
backtracking order, together with the unconsumed remainder. -/
def strptimeMatch (s : List Char) : Option (Timestamp × List Char) :=
  (matchY s).bind fun yr =>
    (candM yr.2).findSome? fun mo =>
      (candD mo.2).findSome? fun dy =>
        (candH dy.2).findSome? fun hr =>
          (candMin hr.2).findSome? fun mi =>
            some (⟨yr.1, mo.1, dy.1, hr.1, mi.1⟩, mi.2)

/-- Gregorian leap year, as `calendar`/`datetime` define it. -/
def isLeap (y : ℕ) : Bool := y % 4 = 0 && (y % 100 ≠ 0 || y % 400 = 0)

/-- Days in a month, as `datetime` validates them. -/
def daysInMonth (y m : ℕ) : ℕ :=
  if m = 2 then (if isLeap y then 29 else 28)
  else if m = 4 || m = 6 || m = 9 || m = 11 then 30
  else 31

/-- `datetime.strptime(s, "%Y%m%d%H%M")`: regex match, full-consumption
check, then `datetime` construction (validates year ≥ 1 and the day against
the month; hour/minute are already in range by the regex). -/
def strptimeYmdHM (s : List Char) : Option Timestamp :=
  match strptimeMatch s with
  | none => none
  | some (ts, rest) =>
      if rest = [] ∧ 1 ≤ ts.year ∧ ts.day ≤ daysInMonth ts.year ts.month then
        some ts
      else none

/-- Python `str.split(sep)` for a one-character separator (the code only
splits on `"_"` and `"."`): e.g. `"a__b" ↦ ["a", "", "b"]`, `"" ↦ [""]`. -/
def splitOnChar (c : Char) : List Char → List (List Char)
  | [] => [[]]
  | a :: rest =>
      let r := splitOnChar c rest
      if a = c then [] :: r
      else
        match r with
        | [] => [[a]]
        | h :: t => (a :: h) :: t

/-- Python `str.endswith(suffix)`. -/
def py_endswith (name suffix : List Char) : Bool := suffix.isSuffixOf name

/-- `member.name.split("_")[1].split(".")[0]` then `strptime`; any failure
(`IndexError` from `[1]`, `ValueError` from `strptime`) is caught by the
`except` and yields `none`. -/
def parse_member_name (name : List Char) : Option Timestamp :=
  match (splitOnChar '_' name).get? 1 with
  | none => none
  | some part =>
      match splitOnChar '.' part with
      | [] => none
      | t :: _ => strptimeYmdHM t

/-- Chronological key: `datetime` (and `np.datetime64`) order is
lexicographic on (year, month, day, hour, minute); with the parsed fields'
ranges (month ≤ 12 < 16, day ≤ 31 < 32, hour < 24, minute < 60) this
encoding is strictly monotone in that order. -/
def Timestamp.key (ts : Timestamp) : ℕ :=
  ts.minute + 60 * (ts.hour + 24 * (ts.day + 32 * (ts.month + 16 * ts.year)))

/-! ## `radar_tar_to_dataset` (formatting.py)

A TAR member is its name plus what `tar.extractfile` + `h5py` +
`odim_hdf5_to_dataset` would produce for it: `none` models
`tar.extractfile(member) is None` (skipped with `continue`); the decoded
grid itself is abstract (`α`). -/

structure Member (α : Type) where
  name : List Char
  content : Option α

/-- The body of the member loop: skip names not ending in `.hdf5`, skip
members whose timestamp cannot be parsed (warning, `continue`), skip
timestamps not on the requested time step, skip members `extractfile`
cannot open; otherwise decode and tag with the timestamp. -/
def memberDecode {α : Type} (timestep : ℕ) (m : Member α) : Option (Timestamp × α) :=
  if ¬ py_endswith m.name ".hdf5".data then none
  else match parse_member_name m.name with
    | none => none
    | some ts =>
        if (ts.hour * 60 + ts.minute) % timestep ≠ 0 then none
        else m.content.map fun g => (ts, g)

/-- `radar_tar_to_dataset`: collect the decoded members in archive order,
raise `ValueError` when nothing was collected, otherwise concatenate along
time and sort ascending by timestamp. -/
def radar_tar_to_dataset {α : Type} (tar : List (Member α)) (timestep : ℕ) :
    Except String (List (Timestamp × α)) :=
  if (tar.filterMap (memberDecode timestep)).isEmpty then
    Except.error "Aucun fichier HDF5 valide trouvé dans le TAR."
  else
    Except.ok ((tar.filterMap (memberDecode timestep)).insertionSort
      fun a b => a.1.key ≤ b.1.key)

/-! ## `odim_hdf5_to_dataset` cell semantics (formatting.py)

A raw cell value is `Option ℚ` (`none` = NaN). NumPy semantics embedded:
`x != c` is `True` for NaN, `NaN < 0` is `False`. -/

/-- A Python/NumPy float that may be NaN. -/
abbrev PyFloat := Option ℚ

/-- NumPy elementwise `x != c` against a finite constant: NaN compares
unequal to everything. -/
def pyNe (x : PyFloat) (c : ℚ) : Bool :=
  match x with
  | none => true
  | some v => v ≠ c

/-- NumPy elementwise `x < c`: any comparison with NaN is `False`. -/
def pyLt (x : PyFloat) (c : ℚ) : Bool :=
  match x with
  | none => false
  | some v => v < c

/-- The ODIM "no data" fill value `-9999000.0` (exactly representable, so
exact float equality is exact rational equality). -/
def odimSentinel : ℚ := -9999000

/-- `mask = np.where(data != -9999000.0, 1, 0)`, per cell. -/
def odim_mask (d : PyFloat) : ℕ :=
  if pyNe d odimSentinel then 1 else 0

/-- `reflectivity = np.where(data != -9999000.0, data, np.nan)` followed,
when `noise_as_zero`, by `np.where(reflectivity < 0, 0, reflectivity)`,
per cell. -/
def odim_reflectivity (d : PyFloat) (noise_as_zero : Bool) : PyFloat :=
  let r := if pyNe d odimSentinel then d else none
  if noise_as_zero then (if pyLt r 0 then some 0 else r) else r

/-! ## `radar_timestep_ds_to_geotiff` cell semantics (formatting.py) -/

/-- `refl.fillna(0)`, per cell. -/
def geotiff_fillna (r : PyFloat) : PyFloat := some (r.getD 0)

/-- `xr.where(mask == 0, missing_value, refl)`, per cell. -/
def geotiff_mask_overwrite (mask : ℕ) (missing : ℚ) (r : PyFloat) : PyFloat :=
  if mask = 0 then some missing else r

/-- The two replacement steps of `radar_timestep_ds_to_geotiff`, in source
order: first `fillna(0)`, then the mask overwrite. -/
def geotiff_cell (mask : ℕ) (missing : ℚ) (r : PyFloat) : PyFloat :=
  geotiff_mask_overwrite mask missing (geotiff_fillna r)

/-! ## `extract_reflectivity_cone` (diagnostics.py)

The geodesic azimuth/distance of each cell from the apex come from
`pyproj.Geod.inv` (ellipsoidal WGS84 geodesy), which we keep abstract: a
cone cell carries the azimuth and distance that `geod.inv` computed for it,
plus its reflectivity. Python's float `%` with a positive modulus is
`x - m * floor(x / m)`. -/

/-- Python `x % m` for `m > 0`: `x - m * ⌊x / m⌋` (result in `[0, m)`). -/
def pymod (x m : ℚ) : ℚ := x - m * ⌊x / m⌋

/-- `angle_diff = (az - heading + 180) % 360 - 180`. -/
def angle_diff (az heading : ℚ) : ℚ := pymod (az - heading + 180) 360 - 180

/-- A cell of the cropped grid, with the `geod.inv` outputs for it. -/
structure ConeCell where
  az : ℚ
  dist : ℚ
  refl : PyFloat

/-- `mask = (np.abs(angle_diff) <= O/2) & (dist <= R_m)` with
`R_m = R * 1000`, per cell. -/
def coneKeep (c : ConeCell) (heading O R : ℚ) : Bool :=
  |angle_diff c.az heading| ≤ O / 2 ∧ c.dist ≤ R * 1000

/-- `cone_refl = refl.where(mask)`: keep the reflectivity where the mask
holds, NaN elsewhere, over the cells of the cropped grid. -/
def extract_reflectivity_cone (cells : List ConeCell) (heading O R : ℚ) :
    List PyFloat :=
  cells.map fun c => if coneKeep c heading O R then c.refl else none

/-! ## Bounding-box crop of `extract_reflectivity_cone` (diagnostics.py)

The crop runs before the exact cone mask: an approximate degree box around
the apex (`dlat = R/111`, `dlon = R/(111*cos(deg2rad(lat0)))`) selects
cells; zero selected cells is fatal, otherwise the grid is sliced to
`[iy.min(), iy.max()] × [ix.min(), ix.max()]`. `np.cos` is transcendental,
so its value at `deg2rad lat0` is the parameter `cosLat0`. -/

/-- A grid cell with its geographic coordinates. -/
structure GCell where
  lat : ℚ
  lon : ℚ
  refl : PyFloat

/-- `mask_bbox`, per cell. -/
def inBBox (latMin latMax lonMin lonMax : ℚ) (c : GCell) : Bool :=
  latMin ≤ c.lat ∧ c.lat ≤ latMax ∧ lonMin ≤ c.lon ∧ c.lon ≤ lonMax

/-- `iy, ix = np.where(mask_bbox)`: the (row, column) indices of the cells
inside the box, in row-major order. -/
def bboxIndices (grid : List (List GCell)) (latMin latMax lonMin lonMax : ℚ) :
    List (ℕ × ℕ) :=
  (grid.enum.map fun r =>
    r.2.enum.filterMap fun c =>
      if inBBox latMin latMax lonMin lonMax c.2 then some (r.1, c.1) else none).flatten

/-- `ds.isel(y: slice(y_min, y_max+1), x: slice(x_min, x_max+1))`. -/
def cropGrid (grid : List (List GCell)) (yMin yMax xMin xMax : ℕ) :
    List (List GCell) :=
  ((grid.drop yMin).take (yMax + 1 - yMin)).map fun row =>
    (row.drop xMin).take (xMax + 1 - xMin)

/-- The bbox/crop stage of `extract_reflectivity_cone`: `dlat = R/111`,
`dlon = R/(111*cos(deg2rad(lat0)))` (with `cosLat0` the value `np.cos`
returned), select cells, fail when none, else slice to the min/max index
spans. -/
def cone_bbox_crop (grid : List (List GCell)) (lat0 lon0 R cosLat0 : ℚ) :
    Except String (List (List GCell)) :=
  match bboxIndices grid (lat0 - R / 111) (lat0 + R / 111)
      (lon0 - R / (111 * cosLat0)) (lon0 + R / (111 * cosLat0)) with
  | [] => Except.error "La bbox ne recouvre aucun point de la grille."
  | p :: ps =>
      Except.ok (cropGrid grid
        ((ps.map Prod.fst).foldl min p.1) ((ps.map Prod.fst).foldl max p.1)
        ((ps.map Prod.snd).foldl min p.2) ((ps.map Prod.snd).foldl max p.2))

/-! ## `compute_heading` (diagnostics.py)

`geod.inv` (forward azimuth of the WGS84 geodesic between consecutive
points) is the abstract parameter `azF`, taking and returning the same
`(lon, lat)` convention the code uses. The code builds
`pd.Series([None, *az], index=df.index)`; pandas raises `ValueError` when
the data length (`1 + (n-1)`) differs from the index length (`n`), which
happens exactly for `n = 0`. -/

/-- `compute_heading`: azimuths between consecutive points, brought into
`[0, 360)` by `(az + 360) % 360`, with `None` prepended; `pd.Series`
validates the length against the index. -/
def compute_heading (azF : ℚ × ℚ → ℚ × ℚ → ℚ) (pts : List (ℚ × ℚ)) :
    Except String (List PyFloat) :=
  let az := (pts.zip pts.tail).map fun pq => pymod (azF pq.1 pq.2 + 360) 360
  let vals : List PyFloat := none :: az.map some
  if vals.length = pts.length then Except.ok vals
  else Except.error "Length of values does not match length of index"

/-! ## `BirdTracks.data` (bird_tracks.py)

`data` evaluates `[point.as_dict() for point in self.points()]`; the
comprehension first calls `self.points()`, but `points` is a plain
`List[BirdPoint]` field, and calling a list raises `TypeError` before
anything else runs (and `point.as_dict()` would call the dict the
`as_dict` property returns, a second `TypeError`). -/

structure BirdPoint where
  lat : ℚ
  lon : ℚ
  dat : ℕ

structure BirdTracks where
  serial_ID : String
  species : String
  points : List BirdPoint

/-- Calling a Python list object: always `TypeError`. -/
def pyCallList {α β : Type} (_ : List α) : Except String β :=
  Except.error "TypeError: 'list' object is not callable"

/-- `BirdTracks.data`: build the points table, then add the `heading`
column via `compute_heading`. The first expression evaluated is
`self.points()`. -/
def BirdTracks.data (azF : ℚ × ℚ → ℚ × ℚ → ℚ) (t : BirdTracks) :
    Except String (List (BirdPoint × PyFloat)) := do
  let pts : List BirdPoint ← pyCallList t.points
  let headings ← compute_heading azF (pts.map fun p => (p.lon, p.lat))
  pure (pts.zip headings)

/-! ## `get_api_data` (meteo_birds/utils.py)

The loop body does `requests.get` then `raise_for_status()` then a single
`output_path.write_bytes(response.content)`. The network's behaviour is a
list of per-attempt outcomes (one per loop iteration, so of length
`max_retries`); the local file is `Option` bytes (absent or some content).
On the last failing attempt the function raises when `stop_on_maxretry`,
else falls off the loop returning `None`. -/

inductive Attempt where
  /-- `requests.get` returned and `raise_for_status` passed; the body. -/
  | success (content : List ℕ)
  /-- a `RequestException` (network error or bad HTTP status). -/
  | failure (msg : String)

/-- `get_api_data`, returning the final file state and the outcome
(`ok (some path)` = returned the path, `ok none` = gave up returning
`None`, `error` = raised `RuntimeError`). -/
def get_api_data (outcomes : List Attempt) (stop_on_maxretry : Bool)
    (file0 : Option (List ℕ)) :
    Option (List ℕ) × Except String Unit :=
  match outcomes with
  | [] => (file0, Except.ok ())
  | [o] =>
      match o with
      | Attempt.success b => (some b, Except.ok ())
      | Attempt.failure e =>
          if stop_on_maxretry then (file0, Except.error e) else (file0, Except.ok ())
  | o :: rest =>
      match o with
      | Attempt.success b => (some b, Except.ok ())
      | Attempt.failure _ => get_api_data rest stop_on_maxretry file0

/-! ## Helper lemmas -/

theorem pymod_eq_fract (x : ℚ) : pymod x 360 = 360 * Int.fract (x / 360) := by
  unfold pymod Int.fract
  field_simp

theorem pymod_nonneg (x : ℚ) : 0 ≤ pymod x 360 := by
  rw [pymod_eq_fract]
  have := Int.fract_nonneg (x / 360)
  positivity

theorem pymod_lt (x : ℚ) : pymod x 360 < 360 := by
  rw [pymod_eq_fract]
  have h := Int.fract_lt_one (x / 360)
  nlinarith

theorem memberDecode_eq_some_iff {α : Type} (timestep : ℕ) (m : Member α)
    (ts : Timestamp) (g : α) :
    memberDecode timestep m = some (ts, g) ↔
      py_endswith m.name ".hdf5".data = true ∧
      parse_member_name m.name = some ts ∧
      (ts.hour * 60 + ts.minute) % timestep = 0 ∧
      m.content = some g := by
  by_cases h1 : py_endswith m.name ".hdf5".data = true
  · rcases hpp : parse_member_name m.name with _ | ts'
    · simp [memberDecode, h1, hpp]
    · by_cases h2 : (ts'.hour * 60 + ts'.minute) % timestep = 0
      · cases hcnt : m.content with
        | none => simp [memberDecode, h1, hpp, h2, hcnt]
        | some g' =>
            simp [memberDecode, h1, hpp, h2, hcnt, Prod.ext_iff]
            rintro rfl -
            exact h2
      · cases hcnt : m.content with
        | none => simp [memberDecode, h1, hpp, h2, hcnt]
        | some g' =>
            simp [memberDecode, h1, hpp, h2, hcnt]
            rintro rfl
            exact fun hc _ => h2 hc
  · simp [memberDecode, h1]

theorem radar_tar_to_dataset_ok_iff {α : Type} (tar : List (Member α))
    (timestep : ℕ) (out : List (Timestamp × α)) :
    radar_tar_to_dataset tar timestep = Except.ok out ↔
      tar.filterMap (memberDecode timestep) ≠ [] ∧
      out = (tar.filterMap (memberDecode timestep)).insertionSort
        fun a b => a.1.key ≤ b.1.key := by
  unfold radar_tar_to_dataset
  split_ifs with h
  · rw [List.isEmpty_iff] at h
    simp [h]
  · rw [List.isEmpty_iff] at h
    simp [h, eq_comm]

theorem radar_tar_to_dataset_error_iff {α : Type} (tar : List (Member α))
    (timestep : ℕ) (e : String) :
    radar_tar_to_dataset tar timestep = Except.error e ↔
      tar.filterMap (memberDecode timestep) = [] ∧
      e = "Aucun fichier HDF5 valide trouvé dans le TAR." := by
  unfold radar_tar_to_dataset
  split_ifs with h
  · rw [List.isEmpty_iff] at h
    simp [h, eq_comm]
  · rw [List.isEmpty_iff] at h
    simp [h]

/-! ## Claim theorems -/

/-- C1: with a positive time step `T` (minutes), a TAR member that ends in
`.hdf5`, has a parseable timestamp and an extractable payload is retained
by the archive decoder iff `(hour*60 + minute) % T = 0`; and every entry of
the decoded series carries the unchanged parsed timestamp of some member
that passed this very filter — a filter, never a rounding. -/
theorem radar_tar_timestep_filter {α : Type} (tar : List (Member α))
    (timestep : ℕ) (ht : 0 < timestep) (m : Member α) (hm : m ∈ tar)
    (ts : Timestamp) (hsuf : py_endswith m.name ".hdf5".data = true)
    (hp : parse_member_name m.name = some ts) (g : α) (hc : m.content = some g) :
    ((ts.hour * 60 + ts.minute) % timestep = 0 ↔
      ∃ out, radar_tar_to_dataset tar timestep = Except.ok out ∧ (ts, g) ∈ out) ∧
    (∀ out, radar_tar_to_dataset tar timestep = Except.ok out →
      ∀ p ∈ out, ∃ m' ∈ tar, py_endswith m'.name ".hdf5".data = true ∧
        parse_member_name m'.name = some p.1 ∧
        (p.1.hour * 60 + p.1.minute) % timestep = 0 ∧ m'.content = some p.2) := by
  constructor
  · constructor
    · intro hcond
      have hmem : (ts, g) ∈ tar.filterMap (memberDecode timestep) :=
        List.mem_filterMap.2
          ⟨m, hm, (memberDecode_eq_some_iff timestep m ts g).2 ⟨hsuf, hp, hcond, hc⟩⟩
      refine ⟨(tar.filterMap (memberDecode timestep)).insertionSort
        (fun a b => a.1.key ≤ b.1.key), ?_, ?_⟩
      · exact (radar_tar_to_dataset_ok_iff tar timestep _).2
          ⟨List.ne_nil_of_mem hmem, rfl⟩
      · exact (List.perm_insertionSort _ _).mem_iff.2 hmem
    · rintro ⟨out, hout, hmem⟩
      obtain ⟨-, rfl⟩ := (radar_tar_to_dataset_ok_iff tar timestep out).1 hout
      have hmem' := (List.perm_insertionSort _ _).mem_iff.1 hmem
      obtain ⟨m', -, hdec⟩ := List.mem_filterMap.1 hmem'
      exact ((memberDecode_eq_some_iff timestep m' ts g).1 hdec).2.2.1
  · intro out hout p hpmem
    obtain ⟨-, rfl⟩ := (radar_tar_to_dataset_ok_iff tar timestep out).1 hout
    have hmem' := (List.perm_insertionSort _ _).mem_iff.1 hpmem
    obtain ⟨m', hm', hdec⟩ := List.mem_filterMap.1 hmem'
    have hdec' : memberDecode timestep m' = some (p.1, p.2) := by
      rw [Prod.mk.eta]
      exact hdec
    obtain ⟨h1, h2, h3, h4⟩ := (memberDecode_eq_some_iff timestep m' p.1 p.2).1 hdec'
    exact ⟨m', hm', h1, h2, h3, h4⟩

/-- C1 witness: a one-member archive at 12:00 UTC with `T = 60`. -/
theorem radar_tar_timestep_filter_witness :
    ((12 * 60 + 0) % 60 = 0 ↔
      ∃ out, radar_tar_to_dataset
          [(⟨"CIRRUS.REF_202506171200.hdf5".data, some 7⟩ : Member ℕ)] 60 =
        Except.ok out ∧ (⟨2025, 6, 17, 12, 0⟩, 7) ∈ out) ∧
    (∀ out, radar_tar_to_dataset
        [(⟨"CIRRUS.REF_202506171200.hdf5".data, some 7⟩ : Member ℕ)] 60 =
        Except.ok out →
      ∀ p ∈ out, ∃ m' ∈ [(⟨"CIRRUS.REF_202506171200.hdf5".data, some 7⟩ : Member ℕ)],
        py_endswith m'.name ".hdf5".data = true ∧
        parse_member_name m'.name = some p.1 ∧
        (p.1.hour * 60 + p.1.minute) % 60 = 0 ∧ m'.content = some p.2) :=
  radar_tar_timestep_filter
    [(⟨"CIRRUS.REF_202506171200.hdf5".data, some 7⟩ : Member ℕ)] 60
    (by decide) ⟨"CIRRUS.REF_202506171200.hdf5".data, some 7⟩ (by simp)
    ⟨2025, 6, 17, 12, 0⟩ (by decide) (by decide) 7 rfl

/-- C8: the archive decoder raises its fatal `ValueError` iff no member at
all yields a valid decoded grid; a member whose filename does not parse
into a timestamp is merely skipped — whenever some other member decodes,
the call still succeeds. -/
theorem radar_tar_decode_error_iff {α : Type} (tar : List (Member α))
    (timestep : ℕ) :
    ((∃ e, radar_tar_to_dataset tar timestep = Except.error e) ↔
      ∀ m ∈ tar, ∀ (ts : Timestamp) (g : α),
        memberDecode timestep m ≠ some (ts, g)) ∧
    (∀ m ∈ tar, parse_member_name m.name = none →
      ∀ m' ∈ tar, ∀ (ts : Timestamp) (g : α),
        memberDecode timestep m' = some (ts, g) →
        ∃ out, radar_tar_to_dataset tar timestep = Except.ok out) := by
  constructor
  · constructor
    · rintro ⟨e, he⟩ m hm ts g hdec
      obtain ⟨hnil, -⟩ := (radar_tar_to_dataset_error_iff tar timestep e).1 he
      exact absurd hnil (List.ne_nil_of_mem (List.mem_filterMap.2 ⟨m, hm, hdec⟩))
    · intro h
      refine ⟨_, (radar_tar_to_dataset_error_iff tar timestep _).2 ⟨?_, rfl⟩⟩
      rw [List.filterMap_eq_nil_iff]
      intro m hm
      rcases hd : memberDecode timestep m with _ | p
      · rfl
      · exact absurd hd (h m hm p.1 p.2 ∘ (Prod.mk.eta ▸ ·))
  · intro m hm hbad m' hm' ts g hdec
    exact ⟨_, (radar_tar_to_dataset_ok_iff tar timestep _).2
      ⟨List.ne_nil_of_mem (List.mem_filterMap.2 ⟨m', hm', hdec⟩), rfl⟩⟩

/-- C8 witness: an archive holding one unparseable member and one valid
member at 13:00 UTC, at `T = 60`. -/
theorem radar_tar_decode_error_iff_witness :
    ((∃ e, radar_tar_to_dataset
        [(⟨"badname.hdf5".data, some 3⟩ : Member ℕ),
         ⟨"CIRRUS.REF_202506171300.hdf5".data, some 4⟩] 60 = Except.error e) ↔
      ∀ m ∈ [(⟨"badname.hdf5".data, some 3⟩ : Member ℕ),
             ⟨"CIRRUS.REF_202506171300.hdf5".data, some 4⟩],
        ∀ (ts : Timestamp) (g : ℕ), memberDecode 60 m ≠ some (ts, g)) ∧
    (∀ m ∈ [(⟨"badname.hdf5".data, some 3⟩ : Member ℕ),
            ⟨"CIRRUS.REF_202506171300.hdf5".data, some 4⟩],
      parse_member_name m.name = none →
      ∀ m' ∈ [(⟨"badname.hdf5".data, some 3⟩ : Member ℕ),
              ⟨"CIRRUS.REF_202506171300.hdf5".data, some 4⟩],
        ∀ (ts : Timestamp) (g : ℕ), memberDecode 60 m' = some (ts, g) →
        ∃ out, radar_tar_to_dataset
            [(⟨"badname.hdf5".data, some 3⟩ : Member ℕ),
             ⟨"CIRRUS.REF_202506171300.hdf5".data, some 4⟩] 60 =
          Except.ok out) :=
  radar_tar_decode_error_iff
    [⟨"badname.hdf5".data, some 3⟩, ⟨"CIRRUS.REF_202506171300.hdf5".data, some 4⟩] 60

/-- C3 counterexample: decoding is not deduplicated — two members whose
names parse to the same timestamp both survive, so the decoded series holds
the timestamp twice. -/
theorem radar_tar_duplicate_timestamps :
    radar_tar_to_dataset
        [(⟨"A_202506171200.hdf5".data, some 0⟩ : Member ℕ),
         ⟨"B_202506171200.hdf5".data, some 1⟩] 60
      = Except.ok [(⟨2025, 6, 17, 12, 0⟩, 0), (⟨2025, 6, 17, 12, 0⟩, 1)] ∧
    ¬ ([(⟨2025, 6, 17, 12, 0⟩, 0), ((⟨2025, 6, 17, 12, 0⟩ : Timestamp), (1 : ℕ))].map
        Prod.fst).Nodup := by
  constructor
  · rw [radar_tar_to_dataset_ok_iff]
    exact ⟨by decide, by decide⟩
  · decide

/-- C3 (amended: sorted ascending, yes; deduplicated, no — equal-timestamp
members each keep an entry): every successfully decoded series is sorted
non-strictly ascending by timestamp. -/
theorem radar_tar_sorted {α : Type} (tar : List (Member α)) (timestep : ℕ)
    (out : List (Timestamp × α))
    (h : radar_tar_to_dataset tar timestep = Except.ok out) :
    out.Pairwise fun a b => a.1.key ≤ b.1.key := by
  obtain ⟨-, rfl⟩ := (radar_tar_to_dataset_ok_iff tar timestep out).1 h
  haveI : IsTotal (Timestamp × α) fun a b => a.1.key ≤ b.1.key :=
    ⟨fun a b => Nat.le_total a.1.key b.1.key⟩
  haveI : IsTrans (Timestamp × α) fun a b => a.1.key ≤ b.1.key :=
    ⟨fun _ _ _ hab hbc => Nat.le_trans hab hbc⟩
  exact List.sorted_insertionSort _ _

/-- C3 witness: the sortedness theorem on a two-member archive given out
of order (13:00 before 12:00). -/
theorem radar_tar_sorted_witness :
    ([((⟨2025, 6, 17, 12, 0⟩ : Timestamp), (1 : ℕ)), (⟨2025, 6, 17, 13, 0⟩, 0)]).Pairwise
      (fun a b => a.1.key ≤ b.1.key) :=
  radar_tar_sorted
    [⟨"A_202506171300.hdf5".data, some 0⟩, ⟨"B_202506171200.hdf5".data, some 1⟩] 60
    [(⟨2025, 6, 17, 12, 0⟩, 1), (⟨2025, 6, 17, 13, 0⟩, 0)]
    (by rw [radar_tar_to_dataset_ok_iff]; exact ⟨by decide, by decide⟩)

/-- C4: in the decoded grid, the validity mask is 1 exactly where the raw
value differs from the sentinel `-9999000.0` under exact equality and 0
otherwise; mask 0 implies NaN reflectivity (also after noise-flooring);
and with noise-flooring on, a valid negative raw value becomes exactly 0,
never staying negative. -/
theorem odim_cell_invariants (d : PyFloat) (noise_as_zero : Bool) :
    (odim_mask d = 1 ↔ d ≠ some odimSentinel) ∧
    (odim_mask d = 0 ↔ d = some odimSentinel) ∧
    (odim_mask d = 0 → odim_reflectivity d noise_as_zero = none) ∧
    (∀ v : ℚ, d = some v → v ≠ odimSentinel → v < 0 →
      odim_reflectivity d true = some 0) ∧
    (∀ v : ℚ, odim_reflectivity d true = some v → 0 ≤ v) := by
  refine ⟨?_, ?_, ?_, ?_, ?_⟩
  · cases d <;> simp [odim_mask, pyNe]
  · cases d <;> simp [odim_mask, pyNe]
  · intro h
    have hd : d = some odimSentinel := by
      cases d <;> simp_all [odim_mask, pyNe]
    subst hd
    cases noise_as_zero <;> simp [odim_reflectivity, pyNe, pyLt]
  · rintro v rfl hne hneg
    simp [odim_reflectivity, pyNe, pyLt, hne, hneg]
  · intro v
    cases d with
    | none => simp [odim_reflectivity, pyNe, pyLt]
    | some w =>
        by_cases hs : w = odimSentinel
        · simp [odim_reflectivity, pyNe, pyLt, hs]
        · by_cases hn : w < 0
          · simp only [odim_reflectivity, pyNe, pyLt]
            simp [hs, hn]
            rintro rfl
            exact le_refl 0
          · simp only [odim_reflectivity, pyNe, pyLt]
            simp [hs, hn]
            rintro rfl
            exact le_of_not_lt hn

/-- C4 witness: the theorem at a valid negative cell (`-5`) with
noise-flooring on. -/
theorem odim_cell_invariants_witness :
    (odim_mask (some (-5)) = 1 ↔ (some (-5) : PyFloat) ≠ some odimSentinel) ∧
    (odim_mask (some (-5)) = 0 ↔ (some (-5) : PyFloat) = some odimSentinel) ∧
    (odim_mask (some (-5)) = 0 → odim_reflectivity (some (-5)) true = none) ∧
    (∀ v : ℚ, (some (-5) : PyFloat) = some v → v ≠ odimSentinel → v < 0 →
      odim_reflectivity (some (-5)) true = some 0) ∧
    (∀ v : ℚ, odim_reflectivity (some (-5)) true = some v → 0 ≤ v) :=
  odim_cell_invariants (some (-5)) true

/-- C2 counterexample: the code's normalization `(az - heading + 180) % 360
- 180` lands in `[-180, 180)`, not `(-180, 180]`: at `az = 180`,
`heading = 0` the deviation is exactly `-180`, outside `(-180, 180]`, and
such a cell is reachable by the extraction (kept when `O = 360`). -/
theorem angle_diff_attains_neg180 :
    angle_diff 180 0 = -180 ∧
    ¬ (-180 < angle_diff 180 0 ∧ angle_diff 180 0 ≤ 180) ∧
    extract_reflectivity_cone [⟨180, 1000, some 5⟩] 0 360 40 = [some 5] := by
  have h : angle_diff 180 0 = -180 := by
    have h1 : ((180 : ℚ) - 0 + 180) / 360 = 1 := by norm_num
    unfold angle_diff pymod
    rw [h1, Int.floor_one]
    norm_num
  refine ⟨h, by rw [h]; norm_num, ?_⟩
  have hk : coneKeep ⟨180, 1000, some 5⟩ 0 360 40 = true := by
    simp only [coneKeep, decide_eq_true_eq]
    exact ⟨by rw [h]; norm_num, by norm_num⟩
  simp [extract_reflectivity_cone, hk]

/-- C2 (amended: the deviation is normalized into `[-180, 180)`, not
`(-180, 180]`): over the cropped grid, each cell's deviation
`(az - heading + 180) % 360 - 180` lies in `[-180, 180)`, and the cell's
reflectivity is preserved iff `|deviation| ≤ O/2` and the geodesic distance
is at most `R * 1000` meters, all other cells becoming NaN. -/
theorem extract_reflectivity_cone_spec (cells : List ConeCell)
    (heading O R : ℚ) :
    (∀ az : ℚ, -180 ≤ angle_diff az heading ∧ angle_diff az heading < 180) ∧
    (extract_reflectivity_cone cells heading O R).length = cells.length ∧
    (∀ (i : ℕ) (c : ConeCell), cells[i]? = some c →
      (extract_reflectivity_cone cells heading O R)[i]? =
        some (if |angle_diff c.az heading| ≤ O / 2 ∧ c.dist ≤ R * 1000
              then c.refl else none)) := by
  refine ⟨?_, by simp [extract_reflectivity_cone], ?_⟩
  · intro az
    unfold angle_diff
    constructor
    · linarith [pymod_nonneg (az - heading + 180)]
    · linarith [pymod_lt (az - heading + 180)]
  · intro i c hc
    by_cases hk : |angle_diff c.az heading| ≤ O / 2 ∧ c.dist ≤ R * 1000 <;>
      simp [extract_reflectivity_cone, coneKeep, List.getElem?_map, hc, hk]

/-- C2 witness: the amended theorem on a one-cell grid (azimuth 90,
distance 1000 m, heading 0, opening 120, radius 40 km). -/
theorem extract_reflectivity_cone_spec_witness :
    (∀ az : ℚ, -180 ≤ angle_diff az 0 ∧ angle_diff az 0 < 180) ∧
    (extract_reflectivity_cone [⟨90, 1000, some 3⟩] 0 120 40).length =
      [(⟨90, 1000, some 3⟩ : ConeCell)].length ∧
    (∀ (i : ℕ) (c : ConeCell), [(⟨90, 1000, some 3⟩ : ConeCell)][i]? = some c →
      (extract_reflectivity_cone [⟨90, 1000, some 3⟩] 0 120 40)[i]? =
        some (if |angle_diff c.az 0| ≤ 120 / 2 ∧ c.dist ≤ 40 * 1000
              then c.refl else none)) :=
  extract_reflectivity_cone_spec [⟨90, 1000, some 3⟩] 0 120 40

/-- C10: the retry download writes the output file only on a fully
successful attempt: if every attempt fails, the file is left exactly as it
was (absent or with its prior content); in general the final file is either
untouched or holds the body of a successful attempt. -/
theorem get_api_data_no_partial_write (outcomes : List Attempt)
    (stop_on_maxretry : Bool) (file0 : Option (List ℕ)) :
    ((∀ o ∈ outcomes, ∀ b, o ≠ Attempt.success b) →
      (get_api_data outcomes stop_on_maxretry file0).1 = file0) ∧
    ((get_api_data outcomes stop_on_maxretry file0).1 = file0 ∨
      ∃ b, Attempt.success b ∈ outcomes ∧
        (get_api_data outcomes stop_on_maxretry file0).1 = some b) := by
  induction outcomes with
  | nil => exact ⟨fun _ => rfl, Or.inl rfl⟩
  | cons o rest ih =>
      cases rest with
      | nil =>
          cases o with
          | success b =>
              refine ⟨fun h => ((h _ (by simp) b) rfl).elim, Or.inr ⟨b, by simp, rfl⟩⟩
          | failure e =>
              cases stop_on_maxretry <;>
                exact ⟨fun _ => rfl, Or.inl rfl⟩
      | cons o2 rest2 =>
          cases o with
          | success b =>
              refine ⟨fun h => ((h _ (by simp) b) rfl).elim, Or.inr ⟨b, by simp, rfl⟩⟩
          | failure e =>
              have hstep : get_api_data (Attempt.failure e :: o2 :: rest2)
                  stop_on_maxretry file0 =
                  get_api_data (o2 :: rest2) stop_on_maxretry file0 := rfl
              rw [hstep]
              refine ⟨fun h => ih.1 fun o ho b => h o (by simp [ho]) b, ?_⟩
              rcases ih.2 with h | ⟨b, hb, h⟩
              · exact Or.inl h
              · exact Or.inr ⟨b, by simp [hb], h⟩

/-- C10 witness: two failed attempts leave an initially-absent file
absent. -/
theorem get_api_data_no_partial_write_witness :
    ((∀ o ∈ [Attempt.failure "timeout", Attempt.failure "503"], ∀ b,
        o ≠ Attempt.success b) →
      (get_api_data [Attempt.failure "timeout", Attempt.failure "503"]
        true none).1 = none) ∧
    ((get_api_data [Attempt.failure "timeout", Attempt.failure "503"]
        true none).1 = none ∨
      ∃ b, Attempt.success b ∈ [Attempt.failure "timeout", Attempt.failure "503"] ∧
        (get_api_data [Attempt.failure "timeout", Attempt.failure "503"]
          true none).1 = some b) :=
  get_api_data_no_partial_write [Attempt.failure "timeout", Attempt.failure "503"]
    true none

/-- C6 counterexample: for the empty input sequence the code does not
return 0 entries — `pd.Series([None], index=<empty>)` raises pandas'
length-mismatch `ValueError` (the data row `[None, *az]` always has at
least one element). -/
theorem compute_heading_empty_raises :
    compute_heading (fun _ _ => (0 : ℚ)) [] =
      Except.error "Length of values does not match length of index" := rfl

/-- C6 (amended: for every nonempty input of n points): the heading
diagnostic returns exactly n entries, entry 0 undefined, and entry i (i≥1)
is the `geod.inv` forward azimuth from point i−1 to point i normalized into
[0, 360) by `(az + 360) % 360`; when the geodesy model returns azimuth 0
(due-north segment) the heading is 0, and when it returns 90 (due-east
segment) the heading is 90. -/
theorem compute_heading_spec (azF : ℚ × ℚ → ℚ × ℚ → ℚ)
    (pts : List (ℚ × ℚ)) (h : pts ≠ []) :
    ∃ out, compute_heading azF pts = Except.ok out ∧
      out.length = pts.length ∧
      out[0]? = some none ∧
      (∀ (i : ℕ) (p q : ℚ × ℚ), pts[i]? = some p → pts[i + 1]? = some q →
        out[i + 1]? = some (some (pymod (azF p q + 360) 360)) ∧
        0 ≤ pymod (azF p q + 360) 360 ∧ pymod (azF p q + 360) 360 < 360 ∧
        (azF p q = 0 → pymod (azF p q + 360) 360 = 0) ∧
        (azF p q = 90 → pymod (azF p q + 360) 360 = 90)) := by
  obtain ⟨p0, ps, rfl⟩ := List.exists_cons_of_ne_nil h
  refine ⟨none :: (((p0 :: ps).zip (p0 :: ps).tail).map
    (fun pq => pymod (azF pq.1 pq.2 + 360) 360)).map some, ?_, ?_, by simp, ?_⟩
  · unfold compute_heading
    rw [if_pos]
    simp [List.length_zip]
  · simp [List.length_zip]
  · intro i p q hp hq
    have hq' : ps[i]? = some q := by simpa using hq
    have hz : ((p0 :: ps).zip ps)[i]? = some (p, q) := by
      rw [List.getElem?_zip_eq_some]
      exact ⟨hp, hq'⟩
    refine ⟨?_, pymod_nonneg _, pymod_lt _, ?_, ?_⟩
    · simp only [List.tail_cons, List.getElem?_cons_succ, List.getElem?_map, hz,
        Option.map_some']
    · intro h0
      rw [h0]
      have h1 : ((0 : ℚ) + 360) / 360 = 1 := by norm_num
      unfold pymod
      rw [h1, Int.floor_one]
      norm_num
    · intro h0
      rw [h0]
      have h1 : ⌊((90 : ℚ) + 360) / 360⌋ = 1 := by
        rw [Int.floor_eq_iff] <;> norm_num
      unfold pymod
      rw [h1]
      norm_num

/-- C6 witness: the amended theorem on three points with a geodesy model
returning azimuth 0 for every segment. -/
theorem compute_heading_spec_witness :
    ∃ out, compute_heading (fun _ _ => (0 : ℚ)) [(0, 0), (0, 1), (0, 2)] =
        Except.ok out ∧
      out.length = [((0 : ℚ), (0 : ℚ)), (0, 1), (0, 2)].length ∧
      out[0]? = some none ∧
      (∀ (i : ℕ) (p q : ℚ × ℚ),
        [((0 : ℚ), (0 : ℚ)), (0, 1), (0, 2)][i]? = some p →
        [((0 : ℚ), (0 : ℚ)), (0, 1), (0, 2)][i + 1]? = some q →
        out[i + 1]? = some (some (pymod ((fun _ _ => (0 : ℚ)) p q + 360) 360)) ∧
        0 ≤ pymod ((fun _ _ => (0 : ℚ)) p q + 360) 360 ∧
        pymod ((fun _ _ => (0 : ℚ)) p q + 360) 360 < 360 ∧
        ((fun _ _ => (0 : ℚ)) p q = 0 →
          pymod ((fun _ _ => (0 : ℚ)) p q + 360) 360 = 0) ∧
        ((fun _ _ => (0 : ℚ)) p q = 90 →
          pymod ((fun _ _ => (0 : ℚ)) p q + 360) 360 = 90)) :=
  compute_heading_spec (fun _ _ => (0 : ℚ)) [(0, 0), (0, 1), (0, 2)] (by decide)

/-- C5: `BirdTracks.data` never produces the points table: the very first
expression it evaluates, `self.points()`, calls the plain list stored in
`points`, raising `TypeError` for every track — including tracks with at
least one point, where the claim promises a table with headings. -/
theorem birdtracks_data_raises (azF : ℚ × ℚ → ℚ × ℚ → ℚ) (t : BirdTracks) :
    BirdTracks.data azF t = Except.error "TypeError: 'list' object is not callable" :=
  rfl

/-- C7: raster export replaces per cell in two ordered steps — NaN
reflectivity becomes 0 first, then mask-0 cells are overwritten with the
missing sentinel — so a mask-0 cell always ends as the sentinel (no-data
wins over zero), a valid NaN cell ends as 0, and a valid finite cell is
untouched. -/
theorem geotiff_cell_two_step (mask : ℕ) (missing : ℚ) (r : PyFloat) :
    geotiff_cell mask missing r
        = geotiff_mask_overwrite mask missing (geotiff_fillna r) ∧
    (mask = 0 → geotiff_cell mask missing r = some missing) ∧
    (mask ≠ 0 → r = none → geotiff_cell mask missing r = some 0) ∧
    (mask ≠ 0 → ∀ v : ℚ, r = some v → geotiff_cell mask missing r = some v) := by
  refine ⟨rfl, ?_, ?_, ?_⟩
  · intro h
    simp [geotiff_cell, geotiff_mask_overwrite, h]
  · rintro h rfl
    simp [geotiff_cell, geotiff_mask_overwrite, geotiff_fillna, h]
  · rintro h v rfl
    simp [geotiff_cell, geotiff_mask_overwrite, geotiff_fillna, h]

/-- C7 witness: the theorem at mask 0 / missing −9999 / NaN input. -/
theorem geotiff_cell_two_step_witness :
    geotiff_cell 0 (-9999) none
        = geotiff_mask_overwrite 0 (-9999) (geotiff_fillna none) ∧
    (0 = 0 → geotiff_cell 0 (-9999) none = some (-9999)) ∧
    ((0 : ℕ) ≠ 0 → (none : PyFloat) = none → geotiff_cell 0 (-9999) none = some 0) ∧
    ((0 : ℕ) ≠ 0 → ∀ v : ℚ, (none : PyFloat) = some v →
      geotiff_cell 0 (-9999) none = some v) :=
  geotiff_cell_two_step 0 (-9999) none

theorem foldl_min_le (l : List ℕ) (a : ℕ) : l.foldl min a ≤ a := by
  induction l generalizing a with
  | nil => exact Nat.le_refl a
  | cons x xs ih => exact Nat.le_trans (ih (min a x)) (Nat.min_le_left a x)

theorem foldl_min_le_of_mem {l : List ℕ} {x : ℕ} (hx : x ∈ l) (a : ℕ) :
    l.foldl min a ≤ x := by
  induction l generalizing a with
  | nil => cases hx
  | cons y ys ih =>
      rcases List.mem_cons.1 hx with rfl | hmem
      · exact Nat.le_trans (foldl_min_le ys (min a x)) (Nat.min_le_right a x)
      · exact ih hmem (min a y)

theorem foldl_min_attained (l : List ℕ) (a : ℕ) :
    l.foldl min a = a ∨ l.foldl min a ∈ l := by
  induction l generalizing a with
  | nil => exact Or.inl rfl
  | cons y ys ih =>
      rcases ih (min a y) with h | h
      · rcases min_choice a y with hm | hm
        · exact Or.inl (by rw [List.foldl_cons, h, hm])
        · exact Or.inr (by rw [List.foldl_cons, h, hm]; exact List.mem_cons_self y ys)
      · exact Or.inr (List.mem_cons_of_mem y h)

theorem le_foldl_max (l : List ℕ) (a : ℕ) : a ≤ l.foldl max a := by
  induction l generalizing a with
  | nil => exact Nat.le_refl a
  | cons x xs ih => exact Nat.le_trans (Nat.le_max_left a x) (ih (max a x))

theorem le_foldl_max_of_mem {l : List ℕ} {x : ℕ} (hx : x ∈ l) (a : ℕ) :
    x ≤ l.foldl max a := by
  induction l generalizing a with
  | nil => cases hx
  | cons y ys ih =>
      rcases List.mem_cons.1 hx with rfl | hmem
      · exact Nat.le_trans (Nat.le_max_right a x) (le_foldl_max ys (max a x))
      · exact ih hmem (max a y)

theorem foldl_max_attained (l : List ℕ) (a : ℕ) :
    l.foldl max a = a ∨ l.foldl max a ∈ l := by
  induction l generalizing a with
  | nil => exact Or.inl rfl
  | cons y ys ih =>
      rcases ih (max a y) with h | h
      · rcases max_choice a y with hm | hm
        · exact Or.inl (by rw [List.foldl_cons, h, hm])
        · exact Or.inr (by rw [List.foldl_cons, h, hm]; exact List.mem_cons_self y ys)
      · exact Or.inr (List.mem_cons_of_mem y h)

theorem mem_bboxIndices {grid : List (List GCell)} {latMin latMax lonMin lonMax : ℚ}
    {p : ℕ × ℕ} :
    p ∈ bboxIndices grid latMin latMax lonMin lonMax ↔
      ∃ row, grid[p.1]? = some row ∧ ∃ cell, row[p.2]? = some cell ∧
        inBBox latMin latMax lonMin lonMax cell = true := by
  unfold bboxIndices
  rw [List.mem_flatten]
  constructor
  · rintro ⟨l, hl, hpl⟩
    rw [List.mem_map] at hl
    obtain ⟨r, hr, rfl⟩ := hl
    rw [List.mem_filterMap] at hpl
    obtain ⟨c, hc, hcp⟩ := hpl
    by_cases hb : inBBox latMin latMax lonMin lonMax c.2 = true
    · rw [if_pos hb] at hcp
      injection hcp with hcp
      subst hcp
      exact ⟨r.2, List.mem_enum_iff_getElem?.1 hr, c.2,
        List.mem_enum_iff_getElem?.1 hc, hb⟩
    · rw [if_neg hb] at hcp
      cases hcp
  · rintro ⟨row, hrow, cell, hcell, hb⟩
    refine ⟨row.enum.filterMap fun c =>
      if inBBox latMin latMax lonMin lonMax c.2 then some (p.1, c.1) else none,
      ?_, ?_⟩
    · rw [List.mem_map]
      exact ⟨(p.1, row), List.mem_enum_iff_getElem?.2 hrow, rfl⟩
    · rw [List.mem_filterMap]
      refine ⟨(p.2, cell), List.mem_enum_iff_getElem?.2 hcell, ?_⟩
      rw [if_pos hb]

/-- C9: cone extraction fails with its fatal geometry error iff the
approximate degree box around the apex (`±R/111` in latitude,
`±R/(111*cos(lat0))` in longitude, `cosLat0` being the cosine value)
contains no grid cell; otherwise the grid is cropped to exactly the span
`[min row .. max row] × [min column .. max column]` of the selected
cells. -/
theorem cone_bbox_crop_spec (grid : List (List GCell)) (lat0 lon0 R cosLat0 : ℚ) :
    ((∃ e, cone_bbox_crop grid lat0 lon0 R cosLat0 = Except.error e) ↔
      ∀ row ∈ grid, ∀ c ∈ row,
        ¬ (lat0 - R / 111 ≤ c.lat ∧ c.lat ≤ lat0 + R / 111 ∧
           lon0 - R / (111 * cosLat0) ≤ c.lon ∧
           c.lon ≤ lon0 + R / (111 * cosLat0))) ∧
    (∀ res, cone_bbox_crop grid lat0 lon0 R cosLat0 = Except.ok res →
      ∃ yMin yMax xMin xMax,
        res = cropGrid grid yMin yMax xMin xMax ∧
        (∀ q ∈ bboxIndices grid (lat0 - R / 111) (lat0 + R / 111)
            (lon0 - R / (111 * cosLat0)) (lon0 + R / (111 * cosLat0)),
          yMin ≤ q.1 ∧ q.1 ≤ yMax ∧ xMin ≤ q.2 ∧ q.2 ≤ xMax) ∧
        (∃ q ∈ bboxIndices grid (lat0 - R / 111) (lat0 + R / 111)
            (lon0 - R / (111 * cosLat0)) (lon0 + R / (111 * cosLat0)), q.1 = yMin) ∧
        (∃ q ∈ bboxIndices grid (lat0 - R / 111) (lat0 + R / 111)
            (lon0 - R / (111 * cosLat0)) (lon0 + R / (111 * cosLat0)), q.1 = yMax) ∧
        (∃ q ∈ bboxIndices grid (lat0 - R / 111) (lat0 + R / 111)
            (lon0 - R / (111 * cosLat0)) (lon0 + R / (111 * cosLat0)), q.2 = xMin) ∧
        (∃ q ∈ bboxIndices grid (lat0 - R / 111) (lat0 + R / 111)
            (lon0 - R / (111 * cosLat0)) (lon0 + R / (111 * cosLat0)), q.2 = xMax)) := by
  rcases hsel : bboxIndices grid (lat0 - R / 111) (lat0 + R / 111)
      (lon0 - R / (111 * cosLat0)) (lon0 + R / (111 * cosLat0)) with _ | ⟨p, ps⟩
  · constructor
    · constructor
      · rintro - row hrow c hc hcond
        have hmem : ∃ i j : ℕ, grid[i]? = some row ∧ row[j]? = some c := by
          obtain ⟨i, hi⟩ := List.mem_iff_getElem?.1 hrow
          obtain ⟨j, hj⟩ := List.mem_iff_getElem?.1 hc
          exact ⟨i, j, hi, hj⟩
        obtain ⟨i, j, hi, hj⟩ := hmem
        have : ((i, j) : ℕ × ℕ) ∈ bboxIndices grid (lat0 - R / 111) (lat0 + R / 111)
            (lon0 - R / (111 * cosLat0)) (lon0 + R / (111 * cosLat0)) :=
          mem_bboxIndices.2 ⟨row, hi, c, hj, by
            simp only [inBBox, decide_eq_true_eq]; exact hcond⟩
        rw [hsel] at this
        cases this
      · intro _
        exact ⟨"La bbox ne recouvre aucun point de la grille.",
          by simp [cone_bbox_crop, hsel]⟩
    · intro res hres
      simp [cone_bbox_crop, hsel] at hres
  · constructor
    · constructor
      · rintro ⟨e, he⟩
        simp [cone_bbox_crop, hsel] at he
      · intro hall
        exfalso
        have hp : p ∈ bboxIndices grid (lat0 - R / 111) (lat0 + R / 111)
            (lon0 - R / (111 * cosLat0)) (lon0 + R / (111 * cosLat0)) := by
          rw [hsel]
          exact List.mem_cons_self p ps
        obtain ⟨row, hrow, cell, hcell, hb⟩ := mem_bboxIndices.1 hp
        rw [inBBox, decide_eq_true_eq] at hb
        exact hall row (List.mem_iff_getElem?.2 ⟨p.1, hrow⟩) cell
          (List.mem_iff_getElem?.2 ⟨p.2, hcell⟩) hb
    · intro res hres
      simp only [cone_bbox_crop, hsel] at hres
      injection hres with hres
      refine ⟨(ps.map Prod.fst).foldl min p.1, (ps.map Prod.fst).foldl max p.1,
        (ps.map Prod.snd).foldl min p.2, (ps.map Prod.snd).foldl max p.2,
        hres.symm, ?_, ?_, ?_, ?_, ?_⟩
      · intro q hq
        rcases List.mem_cons.1 hq with rfl | hmem
        · exact ⟨foldl_min_le _ _, le_foldl_max _ _, foldl_min_le _ _,
            le_foldl_max _ _⟩
        · exact ⟨foldl_min_le_of_mem (List.mem_map_of_mem Prod.fst hmem) _,
            le_foldl_max_of_mem (List.mem_map_of_mem Prod.fst hmem) _,
            foldl_min_le_of_mem (List.mem_map_of_mem Prod.snd hmem) _,
            le_foldl_max_of_mem (List.mem_map_of_mem Prod.snd hmem) _⟩
      · rcases foldl_min_attained (ps.map Prod.fst) p.1 with h | h
        · exact ⟨p, List.mem_cons_self p ps, h.symm⟩
        · obtain ⟨q, hq, hq1⟩ := List.mem_map.1 h
          exact ⟨q, List.mem_cons_of_mem p hq, hq1⟩
      · rcases foldl_max_attained (ps.map Prod.fst) p.1 with h | h
        · exact ⟨p, List.mem_cons_self p ps, h.symm⟩
        · obtain ⟨q, hq, hq1⟩ := List.mem_map.1 h
          exact ⟨q, List.mem_cons_of_mem p hq, hq1⟩
      · rcases foldl_min_attained (ps.map Prod.snd) p.2 with h | h
        · exact ⟨p, List.mem_cons_self p ps, h.symm⟩
        · obtain ⟨q, hq, hq1⟩ := List.mem_map.1 h
          exact ⟨q, List.mem_cons_of_mem p hq, hq1⟩
      · rcases foldl_max_attained (ps.map Prod.snd) p.2 with h | h
        · exact ⟨p, List.mem_cons_self p ps, h.symm⟩
        · obtain ⟨q, hq, hq1⟩ := List.mem_map.1 h
          exact ⟨q, List.mem_cons_of_mem p hq, hq1⟩

/-- C9 witness: the theorem on a one-cell grid whose cell lies at the apex
(`R = 40` km, cosine value 1). -/
theorem cone_bbox_crop_spec_witness :
    ((∃ e, cone_bbox_crop [[(⟨0, 0, some 1⟩ : GCell)]] 0 0 40 1 = Except.error e) ↔
      ∀ row ∈ [[(⟨0, 0, some 1⟩ : GCell)]], ∀ c ∈ row,
        ¬ ((0 : ℚ) - 40 / 111 ≤ c.lat ∧ c.lat ≤ 0 + 40 / 111 ∧
           (0 : ℚ) - 40 / (111 * 1) ≤ c.lon ∧ c.lon ≤ 0 + 40 / (111 * 1))) ∧
    (∀ res, cone_bbox_crop [[(⟨0, 0, some 1⟩ : GCell)]] 0 0 40 1 = Except.ok res →
      ∃ yMin yMax xMin xMax,
        res = cropGrid [[(⟨0, 0, some 1⟩ : GCell)]] yMin yMax xMin xMax ∧
        (∀ q ∈ bboxIndices [[(⟨0, 0, some 1⟩ : GCell)]] (0 - 40 / 111) (0 + 40 / 111)
            (0 - 40 / (111 * 1)) (0 + 40 / (111 * 1)),
          yMin ≤ q.1 ∧ q.1 ≤ yMax ∧ xMin ≤ q.2 ∧ q.2 ≤ xMax) ∧
        (∃ q ∈ bboxIndices [[(⟨0, 0, some 1⟩ : GCell)]] (0 - 40 / 111) (0 + 40 / 111)
            (0 - 40 / (111 * 1)) (0 + 40 / (111 * 1)), q.1 = yMin) ∧
        (∃ q ∈ bboxIndices [[(⟨0, 0, some 1⟩ : GCell)]] (0 - 40 / 111) (0 + 40 / 111)
            (0 - 40 / (111 * 1)) (0 + 40 / (111 * 1)), q.1 = yMax) ∧
        (∃ q ∈ bboxIndices [[(⟨0, 0, some 1⟩ : GCell)]] (0 - 40 / 111) (0 + 40 / 111)
            (0 - 40 / (111 * 1)) (0 + 40 / (111 * 1)), q.2 = xMin) ∧
        (∃ q ∈ bboxIndices [[(⟨0, 0, some 1⟩ : GCell)]] (0 - 40 / 111) (0 + 40 / 111)
            (0 - 40 / (111 * 1)) (0 + 40 / (111 * 1)), q.2 = xMax)) :=
  cone_bbox_crop_spec [[(⟨0, 0, some 1⟩ : GCell)]] 0 0 40 1

end MeteoBirds
